import Mathlib

/- Shallow embedding of
   src/C/services/filter-plugin-interfaces/python/python_plugin_interface.cpp,
   the FogLAMP filter-plugin Python bridge.

   Each bridge function is embedded as a Lean function from its inputs and a
   small environment (recording what the embedded Python runtime answers at
   each interaction point) to the ordered trace of observable events the
   function performs, together with its native return value.  The process-wide
   globals pModule and sPluginName (python_plugin_interface.cpp lines 30-31)
   are gathered in a Bridge value. -/

/-- Identity of a non-null PyObject pointer. -/
abbrev PyObj := Nat

/-- The process-wide bridge state: the globals pModule and sPluginName
(python_plugin_interface.cpp lines 30-31).  pModule = none models a NULL
module pointer. -/
structure Bridge where
  pModule : Option PyObj
  sPluginName : String
  deriving DecidableEq

/-- The transient script-side references created by the two dispatcher entry
points: pFunc (GetAttrString result), readingsList (createReadingsList result,
ingest only), pReturn (CallFunction result), and the two capsules ingest_fn
and ingest_ref (init only). -/
inductive Ref
  | pFunc
  | readingsList
  | pReturn
  | ingestFn
  | ingestRef
  deriving DecidableEq

/-- Observable events of the bridge, in the order the code performs them.
acquireRef r marks the creation of a new owned script-side reference r
(a runtime call returning a new reference); releaseRef r marks Py_CLEAR /
Py_DECREF of that reference.  deleteBatch is the native
delete (ReadingSet *)data at line 100.  drainPendingError is the extern
helper logErrorMessage(), which per the spec drains and logs the runtime
pending error state.  Log messages elide the quote characters of the source
format strings and splice the plugin name where the source passes
sPluginName.c_str() for %s. -/
inductive Event
  | logFatal (msg : String)
  | logError (msg : String)
  | logWarn (msg : String)
  | logDebug (msg : String)
  | gilEnsure
  | gilRelease
  | getAttr (attr : String)
  | acquireRef (r : Ref)
  | releaseRef (r : Ref)
  | drainPendingError
  | createList
  | callFn (fname : String)
  | deleteBatch
  | setProgramName (n : String)
  | pyRuntimeStart
  | pyThreadsStart
  | saveThread
  | appendSysPath (p : String)
  | setArgv (a0 a1 : String)
  | importShim (m : String)
  deriving DecidableEq

/-- Py_CLEAR(x): decrements and nulls x when x is non-null, no-op when x is
already null (used at line 83 where pFunc may be NULL, and at line 119 where
pReturn may be NULL). -/
def pyClear (r : Ref) : Option PyObj → List Event
  | some _ => [Event.releaseRef r]
  | none => []

/-- A native structured record (Reading) as far as the bridge observes it:
an asset name, a list of datapoint name/value pairs, and a timestamp. -/
structure Reading where
  assetName : String
  dataPoints : List (String × Int)
  userTimestamp : Nat
  deriving DecidableEq

/-- Runtime responses consumed by filter_plugin_ingest_fn:
attrResult is what PyObject_GetAttrString(pModule, "plugin_ingest") returns
(line 65); callableOk is PyCallable_Check(pFunc) (line 72); errPending is
PyErr_Occurred() at line 75; callResult is what PyObject_CallFunction
returns (line 94). -/
structure IngestEnv where
  attrResult : Option PyObj
  callableOk : Bool
  errPending : Bool
  callResult : Option PyObj
  deriving DecidableEq

/-- Embedding of filter_plugin_ingest_fn
(python_plugin_interface.cpp lines 53-121).  Returns the event trace; the
native return type is void.  The call to createReadingsList at lines 91-92 is
recorded by the events createList and acquireRef readingsList (the returned
list is a new owned reference); its value-level behaviour is treated
separately.  Note the source concatenates the two adjacent literals at lines
80-81 without a space, producing plugin_ingestin. -/
def filter_plugin_ingest_fn (br : Bridge) (handle : Option PyObj)
    (data : List Reading) (env : IngestEnv) : List Event :=
  match br.pModule with
  | none =>
      [Event.logFatal ("plugin_handle: plugin_ingest(): pModule is NULL for plugin "
        ++ br.sPluginName)]
  | some _ =>
      let pFunc := env.attrResult
      Event.gilEnsure ::
      Event.getAttr "plugin_ingest" ::
      (match pFunc with
       | some _ => [Event.acquireRef Ref.pFunc]
       | none => [Event.logFatal ("Cannot find plugin_ingest method in loaded python module "
           ++ br.sPluginName)]) ++
      if pFunc.isNone || !env.callableOk then
        (if env.errPending then [Event.drainPendingError] else []) ++
        [Event.logFatal ("Cannot call method plugin_ingestin loaded python module "
          ++ br.sPluginName)] ++
        pyClear Ref.pFunc pFunc ++
        [Event.gilRelease]
      else
        [Event.createList, Event.acquireRef Ref.readingsList,
         Event.callFn "plugin_ingest"] ++
        (match env.callResult with
         | some _ => [Event.acquireRef Ref.pReturn]
         | none => []) ++
        pyClear Ref.pFunc pFunc ++
        [Event.deleteBatch] ++
        (match env.callResult with
         | none =>
             [Event.releaseRef Ref.readingsList,
              Event.logError ("Called python script method plugin_ingest : error while getting result object, plugin "
                ++ br.sPluginName),
              Event.drainPendingError]
         | some _ =>
             [Event.logDebug ("plugin_handle: plugin_ingest: got result object, plugin "
               ++ br.sPluginName)]) ++
        pyClear Ref.pReturn env.callResult ++
        [Event.gilRelease]

/-- The configuration category as the bridge observes it: only its
itemsToJSON() serialisation is consumed (line 184). -/
structure ConfigCategory where
  itemsJSON : String
  deriving DecidableEq

/-- config->itemsToJSON(). -/
def ConfigCategory.itemsToJSON (c : ConfigCategory) : String := c.itemsJSON

/-- Runtime responses consumed by filter_plugin_init_fn:
attrResult is PyObject_GetAttrString(pModule, "plugin_init") (line 154);
callableOk is PyCallable_Check(pFunc) (line 162); errPending is
PyErr_Occurred() at line 165; callResult is what PyObject_CallFunction
returns (line 182).  The two PyCapsule_New calls (lines 180-181) never
return NULL in this model, matching the code which does not check them. -/
structure InitEnv where
  attrResult : Option PyObj
  callableOk : Bool
  errPending : Bool
  callResult : Option PyObj
  deriving DecidableEq

/-- Embedding of filter_plugin_init_fn
(python_plugin_interface.cpp lines 139-211).  Returns the event trace and the
native return value (PLUGIN_HANDLE)pReturn: none models NULL.  Source order:
ingest_fn capsule is created first (line 180), then ingest_ref (line 181);
clears run pFunc, ingest_ref, ingest_fn (lines 188-190); pReturn is never
cleared and is returned raw at line 210. -/
def filter_plugin_init_fn (br : Bridge) (config : ConfigCategory)
    (outHandle : Nat) (output : Nat) (env : InitEnv) :
    List Event × Option PyObj :=
  match br.pModule with
  | none =>
      ([Event.logFatal ("plugin_handle: plugin_init(): pModule is NULL for plugin "
         ++ br.sPluginName)], none)
  | some _ =>
      let pFunc := env.attrResult
      let findEvents : List Event :=
        match pFunc with
        | some _ => [Event.acquireRef Ref.pFunc]
        | none => [Event.logFatal ("Cannot find plugin_init method in loaded python module "
            ++ br.sPluginName)]
      if pFunc.isNone || !env.callableOk then
        (Event.gilEnsure :: Event.getAttr "plugin_init" :: findEvents ++
         (if env.errPending then [Event.drainPendingError] else []) ++
         [Event.logFatal ("Cannot call method plugin_init in loaded python module "
           ++ br.sPluginName)] ++
         pyClear Ref.pFunc pFunc ++
         [Event.gilRelease], none)
      else
        (Event.gilEnsure :: Event.getAttr "plugin_init" :: findEvents ++
         [Event.acquireRef Ref.ingestFn, Event.acquireRef Ref.ingestRef,
          Event.callFn "plugin_init"] ++
         (match env.callResult with
          | some _ => [Event.acquireRef Ref.pReturn]
          | none => []) ++
         pyClear Ref.pFunc pFunc ++
         [Event.releaseRef Ref.ingestRef, Event.releaseRef Ref.ingestFn] ++
         (match env.callResult with
          | none =>
              [Event.logError ("Called python script method plugin_init : error while getting result object, plugin "
                 ++ br.sPluginName),
               Event.drainPendingError]
          | some _ =>
              [Event.logDebug ("plugin_handle: plugin_register_init(): got result object, plugin "
                 ++ br.sPluginName)]) ++
         [Event.gilRelease], env.callResult)

/-- SHIM_SCRIPT_REL_PATH (line 22). -/
def SHIM_SCRIPT_REL_PATH : String := "/python/foglamp/plugins/common/shim/"

/-- SHIM_SCRIPT_NAME (line 23). -/
def SHIM_SCRIPT_NAME : String := "filter_shim"

/-- The import-failure fatal diagnostic of PluginInterfaceInit
(lines 281-286), with the strings the function computes spliced in: path is
root ++ SHIM_SCRIPT_REL_PATH, pythonScript is empty and shimLayerPath is
path without its trailing slash, because find_last_of("/") at line 233 finds
the final character of path. -/
def importFailMsg (root pluginName : String) : String :=
  "PluginInterfaceInit: cannot import Python 3.5 script " ++ SHIM_SCRIPT_NAME
    ++ " from " ++ (root ++ SHIM_SCRIPT_REL_PATH) ++ " : pythonScript="
    ++ ", shimLayerPath=" ++ (root ++ SHIM_SCRIPT_REL_PATH).dropRight 1
    ++ ", plugin " ++ pluginName

/-- Runtime responses consumed by PluginInterfaceInit:
foglampRoot is the getenv("FOGLAMP_ROOT") result (line 227), none modelling a
NULL return; importResult is what PyImport_ImportModule returns (line 271);
errPending is PyErr_Occurred() at line 277. -/
structure StartupEnv where
  foglampRoot : Option String
  importResult : Option PyObj
  errPending : Bool
  deriving DecidableEq

/-- Outcome of PluginInterfaceInit.  When getenv("FOGLAMP_ROOT") returns
NULL, line 227 constructs a std::string from a null pointer, which is
undefined behaviour in C++: modelled as the distinguished outcome
undefinedBehaviour, with no events performed.  Otherwise the function
returns: the new bridge state (pModule stored at line 271, sPluginName set
at line 225) together with the value returned at line 299, which is the
stored pModule global itself. -/
inductive StartupResult
  | undefinedBehaviour
  | returned (br : Bridge) (ret : Option PyObj)
  deriving DecidableEq

/-- Embedding of PluginInterfaceInit
(python_plugin_interface.cpp lines 222-300).  path ends in a slash, so the
find_last_of("/") at line 233 finds the final character: pythonScript is the
empty string and shimLayerPath is path without its trailing slash.  The
import-failure fatal message (lines 281-286) splices those strings. -/
def PluginInterfaceInit (pluginName : String) (pluginPathName : String)
    (env : StartupEnv) : List Event × StartupResult :=
  match env.foglampRoot with
  | none => ([], StartupResult.undefinedBehaviour)
  | some root =>
      let path := root ++ SHIM_SCRIPT_REL_PATH
      let name := SHIM_SCRIPT_NAME
      let pythonScript : String := ""
      let shimLayerPath := path.dropRight 1
      let foglampPythonDir := root ++ "/python"
      ([Event.setProgramName name,
        Event.pyRuntimeStart,
        Event.pyThreadsStart,
        Event.saveThread,
        Event.gilEnsure,
        Event.logDebug ("SouthPlugin PythonInterface: shimLayerPath=" ++ shimLayerPath
          ++ ", foglampPythonDir=" ++ foglampPythonDir ++ ", plugin " ++ pluginName),
        Event.appendSysPath shimLayerPath,
        Event.appendSysPath foglampPythonDir,
        Event.setArgv "" pluginName,
        Event.importShim name] ++
       (match env.importResult with
        | none =>
            (if env.errPending then [Event.drainPendingError] else []) ++
            [Event.logFatal (importFailMsg root pluginName)]
        | some _ =>
            [Event.logDebug ("python module loaded successfully, plugin " ++ pluginName)]) ++
       [Event.gilRelease],
       StartupResult.returned { pModule := env.importResult, sPluginName := pluginName }
         env.importResult)

/-- The native dispatcher function pointers PluginInterfaceResolveSymbol can
return (lines 309-318); the first three are extern functions shared with the
common interface (lines 42-44). -/
inductive ResolvedFn
  | plugin_info_fn
  | filter_plugin_init_fn
  | plugin_shutdown_fn
  | plugin_reconfigure_fn
  | filter_plugin_ingest_fn
  deriving DecidableEq

/-- Embedding of PluginInterfaceResolveSymbol
(python_plugin_interface.cpp lines 306-334).  !sym.compare(s) is string
equality.  Returns the event trace (logging only) and the resolved function
pointer, none modelling NULL. -/
def PluginInterfaceResolveSymbol (sPluginName : String) (sym : String) :
    List Event × Option ResolvedFn :=
  if sym = "plugin_info" then ([], some ResolvedFn.plugin_info_fn)
  else if sym = "plugin_init" then ([], some ResolvedFn.filter_plugin_init_fn)
  else if sym = "plugin_shutdown" then ([], some ResolvedFn.plugin_shutdown_fn)
  else if sym = "plugin_reconfigure" then ([], some ResolvedFn.plugin_reconfigure_fn)
  else if sym = "plugin_ingest" then ([], some ResolvedFn.filter_plugin_ingest_fn)
  else if sym = "plugin_start" then
    ([Event.logWarn "FilterPluginInterface currently does not support plugin_start"], none)
  else
    ([Event.logFatal ("FilterPluginInterfaceResolveSymbol can not find symbol " ++ sym
       ++ " in the Filter Python plugin interface library, loaded plugin " ++ sPluginName)],
     none)

/-- The script-side mapping-like value produced for one record. -/
structure ScriptReadingDict where
  asset : String
  readings : List (String × Int)
  timestamp : Nat
  deriving DecidableEq

/-- Modelled from the spec: the per-record conversion inside
createReadingsList, whose definition is not under src (declared extern at
python_plugin_interface.cpp line 45).  Per spec section 4.3 it produces one
script-side mapping-like value per record, preserving field identity and
value. -/
def readingToDict (r : Reading) : ScriptReadingDict :=
  { asset := r.assetName, readings := r.dataPoints, timestamp := r.userTimestamp }

/-- Modelled from the spec: createReadingsList is declared extern at
python_plugin_interface.cpp line 45 and its definition is not under src.
Per spec section 4.3 it converts a native record batch into a script-side
list with one mapping per record, preserving field identity and value in the
same order as the input sequence, and an empty input produces an empty but
non-null script list: none would model a NULL PyObject list, so the result
is always some. -/
def createReadingsList (readings : List Reading) : Option (List ScriptReadingDict) :=
  some (readings.map readingToDict)

/- Trace predicates used by the theorems. -/

/-- Number of events of a trace satisfying p. -/
def ecount (p : Event → Bool) : List Event → Nat
  | [] => 0
  | e :: t => (if p e then 1 else 0) + ecount p t

/-- The event is a fatal-severity log entry. -/
def isFatal : Event → Bool
  | Event.logFatal _ => true
  | _ => false

/-- The event is an error-severity log entry. -/
def isErrorLog : Event → Bool
  | Event.logError _ => true
  | _ => false

/-- The event is a warning-severity log entry. -/
def isWarnLog : Event → Bool
  | Event.logWarn _ => true
  | _ => false

/-- The event is PyGILState_Ensure. -/
def isGilEnsure : Event → Bool
  | Event.gilEnsure => true
  | _ => false

/-- The event is PyGILState_Release. -/
def isGilRelease : Event → Bool
  | Event.gilRelease => true
  | _ => false

/-- The event is a script-callable invocation. -/
def isCallFn : Event → Bool
  | Event.callFn _ => true
  | _ => false

/-- The event is the native deallocation of the record batch. -/
def isDeleteBatch : Event → Bool
  | Event.deleteBatch => true
  | _ => false

/-- The event reads or frees the native record batch: the marshalling
conversion reads it, the delete frees it. -/
def isBatchRef : Event → Bool
  | Event.createList => true
  | Event.deleteBatch => true
  | _ => false

/-- The event creates owned script-side reference r. -/
def isAcquireOf (r : Ref) : Event → Bool
  | Event.acquireRef s => decide (r = s)
  | _ => false

/-- The event releases script-side reference r. -/
def isReleaseOf (r : Ref) : Event → Bool
  | Event.releaseRef s => decide (r = s)
  | _ => false

/-- The event interacts with the embedded runtime (anything except native
logging and the native batch delete). -/
def isRuntimeEv : Event → Bool
  | Event.logFatal _ => false
  | Event.logError _ => false
  | Event.logWarn _ => false
  | Event.logDebug _ => false
  | Event.deleteBatch => false
  | _ => true

/-- The prefix of the trace strictly before the first event satisfying p
(the whole trace when no event satisfies p). -/
def beforeFirst (p : Event → Bool) : List Event → List Event
  | [] => []
  | e :: t => if p e then [] else e :: beforeFirst p t

/-- The suffix of the trace strictly after the first event satisfying p
(empty when no event satisfies p). -/
def afterFirst (p : Event → Bool) : List Event → List Event
  | [] => []
  | e :: t => if p e then t else afterFirst p t

/-- Reference r is acquired exactly as often as it is released in the
trace. -/
def refBalanced (r : Ref) (t : List Event) : Bool :=
  decide (ecount (isAcquireOf r) t = ecount (isReleaseOf r) t)

/-- Execution-lock discipline of one call trace: the lock is released exactly
as often as acquired, it is acquired at most once, and no runtime interaction
follows the release, so whenever the lock was acquired, its release is the
last runtime interaction before the call returns. -/
def gilOk (t : List Event) : Bool :=
  decide (ecount isGilEnsure t = ecount isGilRelease t) &&
  decide (ecount isGilEnsure t ≤ 1) &&
  decide (ecount isRuntimeEv (afterFirst isGilRelease t) = 0)

/-- The ingest call reaches the invocation step: module loaded, callable
found and invocable. -/
def ingestInvocable (br : Bridge) (env : IngestEnv) : Bool :=
  br.pModule.isSome && env.attrResult.isSome && env.callableOk

/-- The init call reaches the invocation step: module loaded, callable found
and invocable. -/
def initInvocable (br : Bridge) (env : InitEnv) : Bool :=
  br.pModule.isSome && env.attrResult.isSome && env.callableOk

@[simp]
theorem ecount_nil (p : Event → Bool) : ecount p [] = 0 := rfl

@[simp]
theorem ecount_cons (p : Event → Bool) (e : Event) (t : List Event) :
    ecount p (e :: t) = (if p e then 1 else 0) + ecount p t := rfl

@[simp]
theorem ecount_append (p : Event → Bool) (a b : List Event) :
    ecount p (a ++ b) = ecount p a + ecount p b := by
  induction a with
  | nil => simp
  | cons e t ih => simp [ecount_cons, ih]; ring

/-- C3: For each dispatcher entry point (ingest and init), once the execution
lock has been acquired for a call it is released exactly once before the call
returns, on every exit path including all error paths; a dispatcher call
never returns while still holding the lock, and the lock release is the last
runtime interaction before returning (no runtime event follows it). -/
theorem gil_release_on_all_paths (br : Bridge) (handle : Option PyObj)
    (data : List Reading) (envI : IngestEnv) (config : ConfigCategory)
    (outHandle output : Nat) (envN : InitEnv) :
    gilOk (filter_plugin_ingest_fn br handle data envI) = true ∧
    gilOk (filter_plugin_init_fn br config outHandle output envN).1 = true := by
  obtain ⟨pm, name⟩ := br
  refine ⟨?_, ?_⟩
  · obtain ⟨attr, c, e, r⟩ := envI
    cases pm <;> cases attr <;> cases c <;> cases e <;> cases r <;>
      simp [filter_plugin_ingest_fn, gilOk, pyClear, afterFirst, ecount,
        isGilEnsure, isGilRelease, isRuntimeEv]
  · obtain ⟨attr, c, e, r⟩ := envN
    cases pm <;> cases attr <;> cases c <;> cases e <;> cases r <;>
      simp [filter_plugin_init_fn, gilOk, pyClear, afterFirst, ecount,
        isGilEnsure, isGilRelease, isRuntimeEv]

/-- C4: A dispatcher entry point invoked while pModule is NULL returns its
inert value (bare return for ingest, NULL handle for init), produces exactly
one fatal-severity log entry whose message names the entry point and appends
the plugin name, and performs no runtime interaction at all (in particular it
never acquires the execution lock). -/
theorem null_module_inert (name : String) (handle : Option PyObj)
    (data : List Reading) (envI : IngestEnv) (config : ConfigCategory)
    (outHandle output : Nat) (envN : InitEnv) :
    filter_plugin_ingest_fn (Bridge.mk none name) handle data envI =
      [Event.logFatal ("plugin_handle: plugin_ingest(): pModule is NULL for plugin " ++ name)] ∧
    filter_plugin_init_fn (Bridge.mk none name) config outHandle output envN =
      ([Event.logFatal ("plugin_handle: plugin_init(): pModule is NULL for plugin " ++ name)],
       none) ∧
    ecount isFatal (filter_plugin_ingest_fn (Bridge.mk none name) handle data envI) = 1 ∧
    ecount isFatal (filter_plugin_init_fn (Bridge.mk none name) config outHandle output envN).1
      = 1 ∧
    ecount isRuntimeEv (filter_plugin_ingest_fn (Bridge.mk none name) handle data envI) = 0 ∧
    ecount isRuntimeEv
      (filter_plugin_init_fn (Bridge.mk none name) config outHandle output envN).1 = 0 := by
  simp [filter_plugin_ingest_fn, filter_plugin_init_fn, ecount, isFatal, isRuntimeEv]

/-- C5: PluginInterfaceResolveSymbol is a pure mapping over a closed set of
names: each of the five supported names resolves to its distinct non-null
dispatcher function pointer with no logging; exactly the name plugin_start
returns null with one warning log and no fatal log; and every other string
returns null with one fatal log naming the symbol and the plugin. -/
theorem resolveSymbol_closed_mapping (name : String) :
    PluginInterfaceResolveSymbol name "plugin_info" =
      ([], some ResolvedFn.plugin_info_fn) ∧
    PluginInterfaceResolveSymbol name "plugin_init" =
      ([], some ResolvedFn.filter_plugin_init_fn) ∧
    PluginInterfaceResolveSymbol name "plugin_shutdown" =
      ([], some ResolvedFn.plugin_shutdown_fn) ∧
    PluginInterfaceResolveSymbol name "plugin_reconfigure" =
      ([], some ResolvedFn.plugin_reconfigure_fn) ∧
    PluginInterfaceResolveSymbol name "plugin_ingest" =
      ([], some ResolvedFn.filter_plugin_ingest_fn) ∧
    PluginInterfaceResolveSymbol name "plugin_start" =
      ([Event.logWarn "FilterPluginInterface currently does not support plugin_start"],
       none) ∧
    ecount isFatal (PluginInterfaceResolveSymbol name "plugin_start").1 = 0 ∧
    ∀ sym, sym ∉ ["plugin_info", "plugin_init", "plugin_shutdown",
        "plugin_reconfigure", "plugin_ingest", "plugin_start"] →
      PluginInterfaceResolveSymbol name sym =
        ([Event.logFatal ("FilterPluginInterfaceResolveSymbol can not find symbol " ++ sym
           ++ " in the Filter Python plugin interface library, loaded plugin " ++ name)],
         none) := by
  refine ⟨rfl, rfl, rfl, rfl, rfl, rfl, rfl, ?_⟩
  intro sym h
  simp only [List.mem_cons, List.not_mem_nil, or_false, not_or] at h
  obtain ⟨h1, h2, h3, h4, h5, h6⟩ := h
  simp [PluginInterfaceResolveSymbol, h1, h2, h3, h4, h5, h6]

/-- C5 witness: the unknown-name clause of resolveSymbol_closed_mapping
instantiated at the concrete symbol not_a_real_symbol. -/
theorem resolveSymbol_closed_mapping_witness :
    "not_a_real_symbol" ∉ ["plugin_info", "plugin_init", "plugin_shutdown",
        "plugin_reconfigure", "plugin_ingest", "plugin_start"] ∧
    PluginInterfaceResolveSymbol "fp" "not_a_real_symbol" =
      ([Event.logFatal ("FilterPluginInterfaceResolveSymbol can not find symbol "
         ++ "not_a_real_symbol"
         ++ " in the Filter Python plugin interface library, loaded plugin " ++ "fp")],
       none) :=
  ⟨by decide,
   (resolveSymbol_closed_mapping "fp").2.2.2.2.2.2.2 "not_a_real_symbol" (by decide)⟩

/-- C1 counterexample: at a concrete ingest call in which the script callable
is resolved, invocable, and the invocation succeeds, the trace of
filter_plugin_ingest_fn contains exactly one script invocation and exactly
one native batch deallocation, and no deallocation occurs before the
invocation: the batch is deleted strictly after the callable is invoked,
refuting the claimed deallocate-before-invoke ordering. -/
theorem ingest_delete_not_before_call :
    ecount isCallFn (filter_plugin_ingest_fn (Bridge.mk (some 1) "fp") (some 0) []
      (IngestEnv.mk (some 2) true false (some 3))) = 1 ∧
    ecount isDeleteBatch (filter_plugin_ingest_fn (Bridge.mk (some 1) "fp") (some 0) []
      (IngestEnv.mk (some 2) true false (some 3))) = 1 ∧
    ecount isDeleteBatch (beforeFirst isCallFn (filter_plugin_ingest_fn
      (Bridge.mk (some 1) "fp") (some 0) [] (IngestEnv.mk (some 2) true false (some 3)))) = 0 := by
  decide

/-- C1 amended: when the ingest callable is resolved and invocable, the
native batch is deallocated exactly once, strictly after the script
invocation returns (immediately after the callable reference is dropped, and
before the invocation result is examined), and the batch is never referenced
again after its deallocation on any path, including the invocation-failure
path; when the module handle is null or the callable is missing or not
invocable, the batch is not deallocated by the bridge at all. -/
theorem ingest_batch_deleted_after_call (br : Bridge) (handle : Option PyObj)
    (data : List Reading) (env : IngestEnv) :
    ecount isDeleteBatch (filter_plugin_ingest_fn br handle data env) =
      (if ingestInvocable br env then 1 else 0) ∧
    ecount isDeleteBatch (beforeFirst isCallFn (filter_plugin_ingest_fn br handle data env))
      = 0 ∧
    ecount isBatchRef (afterFirst isDeleteBatch (filter_plugin_ingest_fn br handle data env))
      = 0 ∧
    (!ingestInvocable br env ||
      decide ((afterFirst (isReleaseOf Ref.pFunc)
        (filter_plugin_ingest_fn br handle data env)).head? = some Event.deleteBatch))
      = true := by
  obtain ⟨pm, name⟩ := br
  obtain ⟨attr, c, e, r⟩ := env
  cases pm <;> cases attr <;> cases c <;> cases e <;> cases r <;>
    simp [filter_plugin_ingest_fn, ingestInvocable, pyClear, ecount, beforeFirst,
      afterFirst, isDeleteBatch, isCallFn, isBatchRef, isReleaseOf]

/-- C2 counterexample: at a concrete ingest call in which the callable
resolves and the invocation succeeds, the marshalled readings list is
acquired but never released before the call returns, refuting the claim that
every transient script-side reference is released on every exit path
including the success path. -/
theorem ingest_readingsList_leaked_on_success :
    ecount (isAcquireOf Ref.readingsList) (filter_plugin_ingest_fn (Bridge.mk (some 1) "fp")
      (some 0) [] (IngestEnv.mk (some 2) true false (some 3))) = 1 ∧
    ecount (isReleaseOf Ref.readingsList) (filter_plugin_ingest_fn (Bridge.mk (some 1) "fp")
      (some 0) [] (IngestEnv.mk (some 2) true false (some 3))) = 0 := by
  decide

/-- C2 amended: on every dispatcher call the callable reference is acquired
exactly as often as it is released, on every exit path.  Ingest releases its
returned value on every path, but releases the marshalled readings list only
when the invocation fails: on the successful-invocation path the readings
list reference is not released before the call returns.  Init releases its
two wrapped capsule references on every path on which they are created,
while its returned value is never released: that reference is deliberately
retained for the host. -/
theorem transient_refs_release_discipline (br : Bridge) (handle : Option PyObj)
    (data : List Reading) (envI : IngestEnv) (config : ConfigCategory)
    (outHandle output : Nat) (envN : InitEnv) :
    (refBalanced Ref.pFunc (filter_plugin_ingest_fn br handle data envI) = true ∧
     refBalanced Ref.pReturn (filter_plugin_ingest_fn br handle data envI) = true ∧
     refBalanced Ref.readingsList (filter_plugin_ingest_fn br handle data envI) =
       !(ingestInvocable br envI && envI.callResult.isSome)) ∧
    (refBalanced Ref.pFunc (filter_plugin_init_fn br config outHandle output envN).1 = true ∧
     refBalanced Ref.ingestFn (filter_plugin_init_fn br config outHandle output envN).1
       = true ∧
     refBalanced Ref.ingestRef (filter_plugin_init_fn br config outHandle output envN).1
       = true ∧
     ecount (isReleaseOf Ref.pReturn)
       (filter_plugin_init_fn br config outHandle output envN).1 = 0) := by
  obtain ⟨pm, name⟩ := br
  refine ⟨?_, ?_⟩
  · obtain ⟨attr, c, e, r⟩ := envI
    cases pm <;> cases attr <;> cases c <;> cases e <;> cases r <;>
      simp [filter_plugin_ingest_fn, ingestInvocable, pyClear, refBalanced, ecount,
        isAcquireOf, isReleaseOf]
  · obtain ⟨attr, c, e, r⟩ := envN
    cases pm <;> cases attr <;> cases c <;> cases e <;> cases r <;>
      simp [filter_plugin_init_fn, pyClear, refBalanced, ecount,
        isAcquireOf, isReleaseOf]

/-- C6: the record marshaller createReadingsList, as invoked by ingest,
produces a script-side list whose length equals the number of input records,
with one mapping per record preserving the record fields and values in the
same order as the input sequence; the empty input batch produces an empty
but non-null script list. -/
theorem createReadingsList_preserves (rs : List Reading) :
    createReadingsList rs = some (rs.map readingToDict) ∧
    (∃ l, createReadingsList rs = some l ∧ l.length = rs.length ∧
       ∀ i : Nat, l[i]? = (rs[i]?).map readingToDict) ∧
    createReadingsList ([] : List Reading) = some [] := by
  refine ⟨rfl, ⟨rs.map readingToDict, rfl, by simp, ?_⟩, rfl⟩
  intro i
  simp [List.getElem?_map]

/-- C7: when a dispatcher entry point resolves an invocable script callable
but the invocation itself returns no usable result, the call logs exactly one
error-severity entry and no fatal entry, with a message naming the entry
point and appending the plugin name; it drains the runtime pending error
state; the execution lock is released with no runtime interaction after the
release, leaving the bridge and runtime usable for subsequent calls; and the
call returns the inert value, init in particular returning a NULL plugin
handle. -/
theorem invocation_failure_recoverable (br : Bridge) (handle : Option PyObj)
    (data : List Reading) (envI : IngestEnv) (config : ConfigCategory)
    (outHandle output : Nat) (envN : InitEnv)
    (hI : ingestInvocable br envI = true) (hrI : envI.callResult = none)
    (hN : initInvocable br envN = true) (hrN : envN.callResult = none) :
    ecount isErrorLog (filter_plugin_ingest_fn br handle data envI) = 1 ∧
    ecount isFatal (filter_plugin_ingest_fn br handle data envI) = 0 ∧
    Event.logError ("Called python script method plugin_ingest : error while getting result object, plugin "
        ++ br.sPluginName) ∈ filter_plugin_ingest_fn br handle data envI ∧
    Event.drainPendingError ∈ filter_plugin_ingest_fn br handle data envI ∧
    gilOk (filter_plugin_ingest_fn br handle data envI) = true ∧
    ecount isErrorLog (filter_plugin_init_fn br config outHandle output envN).1 = 1 ∧
    ecount isFatal (filter_plugin_init_fn br config outHandle output envN).1 = 0 ∧
    Event.logError ("Called python script method plugin_init : error while getting result object, plugin "
        ++ br.sPluginName) ∈ (filter_plugin_init_fn br config outHandle output envN).1 ∧
    Event.drainPendingError ∈ (filter_plugin_init_fn br config outHandle output envN).1 ∧
    gilOk (filter_plugin_init_fn br config outHandle output envN).1 = true ∧
    (filter_plugin_init_fn br config outHandle output envN).2 = none := by
  obtain ⟨pm, name⟩ := br
  obtain ⟨attrI, cI, eI, rI⟩ := envI
  obtain ⟨attrN, cN, eN, rN⟩ := envN
  simp only [ingestInvocable, initInvocable, Bool.and_eq_true,
    Option.isSome_iff_exists] at hI hN
  obtain ⟨⟨⟨m, hm⟩, f, hf⟩, hc⟩ := hI
  obtain ⟨⟨-, g, hg⟩, hcN⟩ := hN
  subst hm hf hg hc hcN hrI hrN
  cases eI <;> cases eN <;>
    simp [filter_plugin_ingest_fn, filter_plugin_init_fn, pyClear, gilOk, ecount,
      afterFirst, isErrorLog, isFatal, isGilEnsure, isGilRelease, isRuntimeEv]

/-- C7 witness: invocation_failure_recoverable at a concrete bridge and
environment in which both callables resolve and both invocations fail. -/
theorem invocation_failure_recoverable_witness :
    ecount isErrorLog (filter_plugin_ingest_fn (Bridge.mk (some 1) "fp") (some 0) []
      (IngestEnv.mk (some 2) true true none)) = 1 ∧
    (filter_plugin_init_fn (Bridge.mk (some 1) "fp") (ConfigCategory.mk "cfg") 0 0
      (InitEnv.mk (some 2) true true none)).2 = none :=
  ⟨(invocation_failure_recoverable (Bridge.mk (some 1) "fp") (some 0) []
      (IngestEnv.mk (some 2) true true none) (ConfigCategory.mk "cfg") 0 0
      (InitEnv.mk (some 2) true true none) rfl rfl rfl rfl).1,
   (invocation_failure_recoverable (Bridge.mk (some 1) "fp") (some 0) []
      (IngestEnv.mk (some 2) true true none) (ConfigCategory.mk "cfg") 0 0
      (InitEnv.mk (some 2) true true none) rfl rfl rfl rfl).2.2.2.2.2.2.2.2.2.2⟩

/-- C8: when the root directory is available and the shim import fails,
PluginInterfaceInit drains the runtime pending error state whenever one is
pending, logs one fatal diagnostic naming the plugin, stores a NULL module
handle in the bridge and returns that same NULL handle, leaving the bridge
safely inert: any subsequent ingest dispatcher call on the stored bridge
performs no runtime interaction.  On import success it stores the imported
module handle in the bridge and returns that same handle. -/
theorem pluginInterfaceInit_import_behaviour (pn pp : String) (env : StartupEnv)
    (root : String) (hroot : env.foglampRoot = some root) :
    (env.importResult = none →
       (env.errPending = true →
          Event.drainPendingError ∈ (PluginInterfaceInit pn pp env).1) ∧
       Event.logFatal (importFailMsg root pn) ∈ (PluginInterfaceInit pn pp env).1 ∧
       ecount isFatal (PluginInterfaceInit pn pp env).1 = 1 ∧
       (PluginInterfaceInit pn pp env).2 =
         StartupResult.returned (Bridge.mk none pn) none ∧
       (∀ handle data envI, ecount isRuntimeEv
          (filter_plugin_ingest_fn (Bridge.mk none pn) handle data envI) = 0)) ∧
    (∀ m, env.importResult = some m →
       ecount isFatal (PluginInterfaceInit pn pp env).1 = 0 ∧
       (PluginInterfaceInit pn pp env).2 =
         StartupResult.returned (Bridge.mk (some m) pn) (some m)) := by
  obtain ⟨fr, ir, ep⟩ := env
  simp only at hroot
  subst hroot
  constructor
  · rintro rfl
    cases ep <;>
      simp [PluginInterfaceInit, filter_plugin_ingest_fn, ecount, isFatal, isRuntimeEv]
  · rintro m rfl
    cases ep <;>
      simp [PluginInterfaceInit, ecount, isFatal]

/-- C8 witness: pluginInterfaceInit_import_behaviour at a concrete
environment with the root directory present, a pending runtime error, and a
failing shim import. -/
theorem pluginInterfaceInit_import_behaviour_witness :
    (StartupEnv.mk (some "/usr/local/foglamp") none true).foglampRoot =
      some "/usr/local/foglamp" ∧
    (PluginInterfaceInit "fp" "/p" (StartupEnv.mk (some "/usr/local/foglamp") none true)).2 =
      StartupResult.returned (Bridge.mk none "fp") none :=
  ⟨rfl,
   ((pluginInterfaceInit_import_behaviour "fp" "/p"
      (StartupEnv.mk (some "/usr/local/foglamp") none true)
      "/usr/local/foglamp" rfl).1 rfl).2.2.2.1⟩

/-- C9: evaluating the startup operation at the failing input where
getenv(FOGLAMP_ROOT) returns no value: line 227 constructs a std::string
from the returned null pointer, which is undefined behaviour in C++, so the
call reaches the distinguished undefined-behaviour outcome with no events
performed, and in particular no fatal-severity log entry is produced: the
code does not provide the well-defined fatal-failure outcome the claim
describes. -/
theorem pluginInterfaceInit_missing_env_undefined :
    PluginInterfaceInit "fp" "/usr/local/foglamp/plugin" (StartupEnv.mk none none false) =
      ([], StartupResult.undefinedBehaviour) ∧
    ecount isFatal (PluginInterfaceInit "fp" "/usr/local/foglamp/plugin"
      (StartupEnv.mk none none false)).1 = 0 := by
  decide

/-- C10: filter_plugin_init_fn returns a non-null plugin handle exactly when
the module handle is non-null, the plugin_init callable is found and
invocable, and the invocation produces a result object; the returned handle
is the raw invocation result, unvalidated (whatever object the script
returned becomes the handle) and unreleased (no release of the returned
value ever appears in the trace). -/
theorem init_handle_iff_chain (br : Bridge) (config : ConfigCategory)
    (outHandle output : Nat) (env : InitEnv) :
    (filter_plugin_init_fn br config outHandle output env).2 =
      (if initInvocable br env then env.callResult else none) ∧
    ((filter_plugin_init_fn br config outHandle output env).2.isSome = true ↔
      br.pModule.isSome = true ∧ env.attrResult.isSome = true ∧ env.callableOk = true ∧
      env.callResult.isSome = true) ∧
    ecount (isReleaseOf Ref.pReturn)
      (filter_plugin_init_fn br config outHandle output env).1 = 0 := by
  obtain ⟨pm, name⟩ := br
  obtain ⟨attr, c, e, r⟩ := env
  cases pm <;> cases attr <;> cases c <;> cases e <;> cases r <;>
    simp [filter_plugin_init_fn, initInvocable, pyClear, ecount, isReleaseOf]
